import Mathlib

/-!
Verification of the Dispatcharr diagnostic scripts.

This file is a shallow embedding, in Lean 4, of the decision logic of the
diagnostic scripts in the repository:

* `compare_streams.py`               (namespace `CompareStreams`)
* `verify_stream_differences.py`     (namespace `VerifyStreamDifferences`)
* `scripts/inspect_duplicates.py`, `scripts/debug_query.py` and the
  duplicate-discovery query of `compare_streams.py` (namespace `DupQuery`)
* the database-effect footprint of every script (namespace `DbEffects`)

Conventions of the embedding:

* The output of one `ffprobe` subprocess invocation is modelled by `FFRun`:
  either a timeout, some other exception raised while probing, or a completed
  process with a return code and (when the JSON parse of stdout succeeds) the
  parsed data.  Numeric conversions (`int(...)`, `float(...)`,
  `Fraction(...)` / `eval(...)` on the frame rate) can raise in Python; each
  such conversion is modelled as a `Conv` value carried by the input.
* Python `dict`s keyed by stream id are modelled as lists in insertion order;
  the keys themselves never influence the decisions under study.
* Python `float` tolerances are embedded exactly: the literal `0.05` is the
  rational 1/20, so the test `abs(d) > base * 0.05` is embedded as
  `20 * |d| > base` over `Int`.  For the integer magnitudes handled here
  (bit rates, byte sizes) the double-precision evaluation in Python and the
  exact evaluation agree.
* Database rows are modelled by lists: a list of episode ids, one entry per
  `M3UEpisodeRelation` row of one account, stands for the relation table.
-/

/-- Outcome of one fallible Python conversion (such as `int(...)`,
`float(...)`, `Fraction(...)` or `eval(...)`): either it raises, or it yields
a value. -/
inductive Conv (α : Type) where
  | raises : Conv α
  | ok : α → Conv α
deriving DecidableEq, Repr

/-- One entry of the `streams` array of the parsed ffprobe JSON output. -/
structure FFStreamEntry where
  codec_type : String
  width : Option Int
  height : Option Int
  codec_name : Option String
  /-- Models the frame-rate conversion of the `r_frame_rate` field:
  `none` when the key is absent (or falsy), `some .raises` when the
  conversion raises, `some (.ok q)` when it yields the rational `q`. -/
  r_frame_rate : Option (Conv Rat)
  channels : Option Int
deriving DecidableEq, Repr

/-- The `format` object of the parsed ffprobe JSON output.  Each field models
the numeric conversion applied by the scripts: `.ok v` when
`int(...)`/`float(...)` of the raw value (or of the default `0`) yields `v`,
`.raises` when the conversion raises. -/
structure FFFormat where
  bit_rate : Conv Int
  duration : Conv Rat
  size : Conv Int
deriving DecidableEq, Repr

/-- Parsed ffprobe JSON output: the `streams` array and the `format` object. -/
structure FFData where
  streams : List FFStreamEntry
  format : FFFormat
deriving DecidableEq, Repr

/-- Outcome of one ffprobe subprocess invocation, as observed by
`ffprobe_stream`: a timeout, any other exception raised while running the
subprocess, or a completed process with its return code and the result of
`json.loads` on stdout (`none` when the parse raises). -/
inductive FFRun where
  | timeout : FFRun
  | exc : FFRun
  | completed : Int → Option FFData → FFRun
deriving DecidableEq, Repr

/-- First stream of the `streams` array whose `codec_type` is `video`
(the selection loop of both `ffprobe_stream` versions keeps the first video
stream it sees). -/
def firstVideo (ss : List FFStreamEntry) : Option FFStreamEntry :=
  ss.find? (fun s => s.codec_type == "video")

/-- First stream of the `streams` array whose `codec_type` is `audio`. -/
def firstAudio (ss : List FFStreamEntry) : Option FFStreamEntry :=
  ss.find? (fun s => s.codec_type == "audio")

/-- Frame-rate value used by both scripts: `0` when `r_frame_rate` is absent
(`compare_streams.py` tests truthiness before calling `Fraction`;
`verify_stream_differences.py` applies `eval` to the default string `0/1`),
otherwise the outcome of the conversion. -/
def fpsValue : Option (Conv Rat) → Conv Rat
  | none => .ok 0
  | some r => r

namespace CompareStreams

/-- Metadata dict built by `ffprobe_stream` in `compare_streams.py`
(lines 65-78): resolution string, width, height, codec, bitrate, duration,
fps, file size, plus the two audio keys when an audio stream was found. -/
structure Metadata where
  resolution : String
  width : Int
  height : Int
  codec : String
  bitrate : Int
  duration : Rat
  fps : Rat
  file_size : Int
  /-- Present exactly when an audio stream was found: codec name and
  channel count. -/
  audio : Option (String × Int)
deriving DecidableEq, Repr

/-- Keys of the metadata dict of `compare_streams.py`, in construction order
(lines 65-78): the eight unconditional keys, then the two audio keys when an
audio stream was found. -/
def metadataKeys (m : Metadata) : List String :=
  ["resolution", "width", "height", "codec", "bitrate", "duration", "fps",
   "file_size"] ++
    (match m.audio with
     | some _ => ["audio_codec", "audio_channels"]
     | none => [])

/-- Embedding of `ffprobe_stream` of `compare_streams.py` (lines 24-87):
returns `none` on timeout, on any other exception, on a nonzero return code,
when `json.loads` raises, when no video stream is present, or when one of the
numeric conversions raises; otherwise the metadata dict. -/
def ffprobe_stream : FFRun → Option Metadata
  | .timeout => none
  | .exc => none
  | .completed rc parsed =>
    if rc ≠ 0 then none
    else
      match parsed with
      | none => none
      | some data =>
        match firstVideo data.streams with
        | none => none
        | some v =>
          match data.format.bit_rate, data.format.duration,
              fpsValue v.r_frame_rate, data.format.size with
          | .ok br, .ok dur, .ok fps, .ok sz =>
            some
              { resolution :=
                  toString (v.width.getD 0) ++ "x" ++ toString (v.height.getD 0)
                width := v.width.getD 0
                height := v.height.getD 0
                codec := v.codec_name.getD "unknown"
                bitrate := br
                duration := dur
                fps := fps
                file_size := sz
                audio := (firstAudio data.streams).map
                  (fun a => (a.codec_name.getD "unknown", a.channels.getD 0)) }
          | _, _, _, _ => none

/-- Loop-body test of `analyze_episode_streams` (lines 187-197): the probe
`m` keeps `all_identical` true against the baseline `first` when the
resolution strings are equal, the bitrate differs by at most 5 percent of the
baseline bitrate, and the file size differs by at most 5 percent of the
baseline file size (`0.05` embedded exactly as `1/20`). -/
def probeMatches (first m : Metadata) : Bool :=
  m.resolution == first.resolution
    && decide (20 * |m.bitrate - first.bitrate| ≤ first.bitrate)
    && decide (20 * |m.file_size - first.file_size| ≤ first.file_size)

/-- The `valid_results` dict (line 177): the non-`None` probe results, in
insertion order. -/
def validResults (results : List (Option Metadata)) : List Metadata :=
  results.filterMap id

/-- Observable outcome of `analyze_episode_streams` (lines 177-217): the
`Not enough valid streams to compare` early return, the IDENTICAL report, or
the DIFFERENT report. -/
inductive Verdict where
  | notEnough : Verdict
  | identical : Verdict
  | different : Verdict
deriving DecidableEq, Repr

/-- Comparison of the valid results (lines 179-217): with fewer than two
valid results the comparison is skipped; otherwise the first valid result is
the baseline and the streams are reported identical exactly when every valid
result passes the loop-body test against it. -/
def analyzeVerdictValid : List Metadata → Verdict
  | [] => .notEnough
  | [_] => .notEnough
  | first :: rest =>
    if (first :: rest).all (probeMatches first) then .identical else .different

/-- Comparison stage of `analyze_episode_streams` (lines 177-217): the
comparison of the non-`None` probe results. -/
def analyzeVerdict (results : List (Option Metadata)) : Verdict :=
  analyzeVerdictValid (validResults results)

/-- Return value of `analyze_episode_streams`: `True` only for the IDENTICAL
report; both the skipped comparison (line 181) and the DIFFERENT report
(line 217) return `False`. -/
def analyze_episode_streams (results : List (Option Metadata)) : Bool :=
  match analyzeVerdict results with
  | .identical => true
  | _ => false

/-- Agreement of two metadata records on the only three fields the comparison
of `analyze_episode_streams` reads: resolution, bit rate and file size. -/
def obsEqM (m n : Metadata) : Prop :=
  m.resolution = n.resolution ∧ m.bitrate = n.bitrate ∧
    m.file_size = n.file_size

/-- Observational equivalence of two probe results: both failed, or both
succeeded with the same resolution, bit rate and file size. -/
def obsEq (a b : Option Metadata) : Prop :=
  match a, b with
  | none, none => True
  | some m, some n => obsEqM m n
  | _, _ => False

/-- Tally of `main` (lines 243-252) over the episodes whose analysis ran:
`(identical_count, different_count)`, incrementing the first component when
`analyze_episode_streams` returned `True` and the second otherwise. -/
def mainTally (episodes : List (List (Option Metadata))) : Nat × Nat :=
  episodes.foldl
    (fun acc results =>
      if analyze_episode_streams results then (acc.1 + 1, acc.2)
      else (acc.1, acc.2 + 1))
    (0, 0)

end CompareStreams

namespace VerifyStreamDifferences

/-- Metadata dict built by `ffprobe_stream` in `verify_stream_differences.py`
(lines 66-78): resolution string, width, height, codec, bitrate, duration and
fps, plus the two audio keys when an audio stream was found.  Unlike the
`compare_streams.py` version, no file-size key is built. -/
structure Metadata where
  resolution : String
  width : Int
  height : Int
  codec : String
  bitrate : Int
  duration : Rat
  fps : Rat
  /-- Present exactly when an audio stream was found: codec name and
  channel count. -/
  audio : Option (String × Int)
deriving DecidableEq, Repr

/-- Keys of the metadata dict of `verify_stream_differences.py`, in
construction order (lines 66-78). -/
def metadataKeys (m : Metadata) : List String :=
  ["resolution", "width", "height", "codec", "bitrate", "duration", "fps"] ++
    (match m.audio with
     | some _ => ["audio_codec", "audio_channels"]
     | none => [])

/-- Embedding of `ffprobe_stream` of `verify_stream_differences.py`
(lines 15-87): returns `none` on timeout, on any other exception, on a
nonzero return code, when `json.loads` raises, when no video stream is
present, or when one of the numeric conversions raises; otherwise the
metadata dict.  The `format` size field is never read by this version. -/
def ffprobe_stream : FFRun → Option Metadata
  | .timeout => none
  | .exc => none
  | .completed rc parsed =>
    if rc ≠ 0 then none
    else
      match parsed with
      | none => none
      | some data =>
        match firstVideo data.streams with
        | none => none
        | some v =>
          match data.format.bit_rate, data.format.duration,
              fpsValue v.r_frame_rate with
          | .ok br, .ok dur, .ok fps =>
            some
              { resolution :=
                  toString (v.width.getD 0) ++ "x" ++ toString (v.height.getD 0)
                width := v.width.getD 0
                height := v.height.getD 0
                codec := v.codec_name.getD "unknown"
                bitrate := br
                duration := dur
                fps := fps
                audio := (firstAudio data.streams).map
                  (fun a => (a.codec_name.getD "unknown", a.channels.getD 0)) }
          | _, _, _ => none

/-- Loop-body test of `compare_streams` (lines 146-152): the probe `m` keeps
`all_identical` true against the baseline `first_stream` when the resolution
strings are equal and the bitrate differs by at most the fixed tolerance of
100000 bits per second.  No other field is examined. -/
def streamMatches (first m : Metadata) : Bool :=
  m.resolution == first.resolution
    && decide (|m.bitrate - first.bitrate| ≤ 100000)

/-- Observable outcome of the comparison stage of `compare_streams`
(lines 131-167): the `No streams could be analyzed` early return on an empty
results dict, the `Not enough valid streams to compare` early return, the
IDENTICAL report, or the DIFFERENT report. -/
inductive Verdict where
  | noStreams : Verdict
  | notEnough : Verdict
  | identical : Verdict
  | different : Verdict
deriving DecidableEq, Repr

/-- Comparison stage of `compare_streams` (lines 131-167).  The `results`
dict holds one entry per probed stream, `None` for failed probes; it is empty
exactly when no stream was probed at all.  With fewer than two valid results
the comparison is skipped; otherwise the first valid result is the baseline
and the streams are reported identical exactly when every valid result passes
the loop-body test against it. -/
def compareVerdict (results : List (Option Metadata)) : Verdict :=
  if results.isEmpty then .noStreams
  else
    match results.filterMap id with
    | [] => .notEnough
    | [_] => .notEnough
    | first :: rest =>
      if (first :: rest).all (streamMatches first) then .identical
      else .different

end VerifyStreamDifferences

namespace DupQuery

/-!
Model of the duplicate-discovery queries.  The relation rows of one account
are a list of episode ids, one entry per `M3UEpisodeRelation` row, so
`rels.count e` is the number of stream relations of episode `e` for that
account.  The grouped query
`values(episode).annotate(stream_count=Count(id)).filter(stream_count__gt=1)`
groups the rows by episode and keeps the groups with more than one row; it is
used by `find_episodes_with_duplicate_streams` (compare_streams.py lines
111-118, there followed by `order_by(-stream_count)` and a `[:10]` slice), by
`inspect_duplicates` (scripts/inspect_duplicates.py lines 32-34) and by
`debug_query` (scripts/debug_query.py lines 39-45).
-/

/-- Result rows of the grouped duplicate query, one `(episode, stream_count)`
pair per episode with more than one relation row. -/
def duplicate_episode_groups (rels : List Nat) : List (Nat × Nat) :=
  (rels.dedup.map (fun e => (e, rels.count e))).filter (fun p => 1 < p.2)

/-- Stable insertion of a group row into a list kept in descending
`stream_count` order; together with `sortByCountDesc` this models the
`order_by(-stream_count)` clause. -/
def insertByCountDesc (p : Nat × Nat) : List (Nat × Nat) → List (Nat × Nat)
  | [] => [p]
  | q :: rest =>
    if q.2 ≤ p.2 then p :: q :: rest else q :: insertByCountDesc p rest

/-- Sorts the group rows by descending `stream_count`
(the `order_by(-stream_count)` clause of compare_streams.py line 117). -/
def sortByCountDesc (l : List (Nat × Nat)) : List (Nat × Nat) :=
  l.foldr insertByCountDesc []

/-- Embedding of the per-account episode-id list built by
`find_episodes_with_duplicate_streams` (compare_streams.py line 121): the
episode ids of the first 10 rows of the duplicate query, which is ordered by
descending `stream_count`. -/
def find_episodes_with_duplicate_streams (rels : List Nat) : List Nat :=
  ((sortByCountDesc (duplicate_episode_groups rels)).take 10).map Prod.fst

/-- One step of the manual Python grouping of `debug_query`
(scripts/debug_query.py lines 31-33):
`ep_counts[ep_id] = ep_counts.get(ep_id, 0) + 1` on a dict kept in insertion
order. -/
def dictIncr (acc : List (Nat × Nat)) (e : Nat) : List (Nat × Nat) :=
  if acc.any (fun p => p.1 == e) then
    acc.map (fun p => if p.1 == e then (p.1, p.2 + 1) else p)
  else acc ++ [(e, 1)]

/-- The `ep_counts` dict of `debug_query` after the grouping loop. -/
def manualCounts (rels : List Nat) : List (Nat × Nat) :=
  rels.foldl dictIncr []

/-- The `len(manual_dupes)` value of `debug_query` (line 35-36): number of
dict entries whose relation count exceeds 1. -/
def manual_dupes_count (rels : List Nat) : Nat :=
  ((manualCounts rels).filter (fun p => 1 < p.2)).length

/-- The `orm_dupes.count()` value of `debug_query` (lines 39-46): number of
rows of the grouped duplicate query. -/
def orm_dupes_count (rels : List Nat) : Nat :=
  (duplicate_episode_groups rels).length

end DupQuery

namespace DbEffects

/-!
Static model of the datastore interactions of each script: one entry per
ORM call site, in source order.  `query` is a read; `create` is the direct
row insertion `Series.objects.create`; `externalWrite` is the call into
`batch_process_episodes`, the external task that inserts Episode and
M3UEpisodeRelation rows during the script invocation.
-/

/-- Kind of one datastore interaction. -/
inductive DbOp where
  | query : DbOp
  | create : DbOp
  | externalWrite : DbOp
deriving DecidableEq, Repr

/-- ORM call sites of compare_streams.py: the active-account query (line 98),
the grouped duplicate query (lines 111-118), the relation query of
`analyze_episode_streams` (lines 133-136) and the episode lookup of `main`
(line 245). -/
def compare_streams_ops : List DbOp := [.query, .query, .query, .query]

/-- ORM call sites of verify_stream_differences.py
(`analyze_dispatcharr_episode`): the episode lookup (line 187) and the
relation query (lines 188-191). -/
def verify_stream_differences_ops : List DbOp := [.query, .query]

/-- ORM call sites of scripts/analyze_provider_raw.py: the account lookup
(line 76); all further traffic goes to the provider API, not the datastore. -/
def analyze_provider_raw_ops : List DbOp := [.query]

/-- ORM call sites of scripts/check_specific_streams.py: the relation query
(line 17) and the related-episode reads of the loop (lines 24-29). -/
def check_specific_streams_ops : List DbOp := [.query, .query]

/-- ORM call sites of scripts/debug_episode_integrity.py: the grouped
duplicate-episode query (lines 17-22) and the series lookup (line 37). -/
def debug_episode_integrity_ops : List DbOp := [.query, .query]

/-- ORM call sites of scripts/debug_query.py: the account query (line 18),
the raw count (line 25), the manual-grouping row fetch (line 29) and the
grouped ORM query (lines 39-46). -/
def debug_query_ops : List DbOp := [.query, .query, .query, .query]

/-- ORM call sites of scripts/inspect_duplicates.py: the account query
(line 22), the grouped duplicate query (lines 32-34), the episode lookup
(line 46) and the relation query (line 47). -/
def inspect_duplicates_ops : List DbOp := [.query, .query, .query, .query]

/-- ORM call sites of scripts/inspect_episode_216433.py: the episode lookup
(line 20) and the relation query (line 28). -/
def inspect_episode_216433_ops : List DbOp := [.query, .query]

/-- Every datastore call site of the eight scripts other than
test_episode_dedup.py. -/
def readOnlyScriptOps : List DbOp :=
  compare_streams_ops ++ verify_stream_differences_ops ++
    analyze_provider_raw_ops ++ check_specific_streams_ops ++
    debug_episode_integrity_ops ++ debug_query_ops ++
    inspect_duplicates_ops ++ inspect_episode_216433_ops

/-- Datastore interaction trace of `test_episode_deduplication`
(test_episode_dedup.py), as a function of whether an active account exists
(line 32) and whether a series matching MasterChef is found (line 37): the
account lookup; then, when an account exists, the series lookup, the
`Series.objects.create` call when no matching series was found (lines 40-44),
the two before counts (lines 125-126), the `batch_process_episodes` call
(line 134), the two after counts (lines 137-141), the episode lookup
(line 172) and the relation query (lines 174-177). -/
def test_episode_deduplication_ops (accountExists masterChefFound : Bool) :
    List DbOp :=
  [.query] ++
    (if accountExists then
      [.query] ++ (if masterChefFound then [] else [.create]) ++
        [.query, .query, .externalWrite, .query, .query, .query, .query]
    else [])

end DbEffects

/-!
Concrete sample inputs used by the witness and counterexample theorems.
-/

/-- A parsed ffprobe output with one 1920x1080 h264 video stream, no audio
stream, a 5 Mb/s bit rate and a 1 GB size. -/
def sampleFFData : FFData :=
  { streams :=
      [{ codec_type := "video", width := some 1920, height := some 1080,
         codec_name := some "h264", r_frame_rate := some (.ok 25),
         channels := none }]
    format :=
      { bit_rate := .ok 5000000, duration := .ok 3600,
        size := .ok 1000000000 } }

/-- A successful ffprobe run returning `sampleFFData`. -/
def sampleRun : FFRun := .completed 0 (some sampleFFData)

/-- The metadata record `compare_streams.ffprobe_stream` builds from
`sampleRun`. -/
def sampleCSMetadata : CompareStreams.Metadata :=
  { resolution := "1920x1080", width := 1920, height := 1080,
    codec := "h264", bitrate := 5000000, duration := 3600, fps := 25,
    file_size := 1000000000, audio := none }

/-- The metadata record `verify_stream_differences.ffprobe_stream` builds
from `sampleRun`. -/
def sampleVSMetadata : VerifyStreamDifferences.Metadata :=
  { resolution := "1920x1080", width := 1920, height := 1080,
    codec := "h264", bitrate := 5000000, duration := 3600, fps := 25,
    audio := none }

/-- A second verify_stream_differences metadata record: same resolution as
`sampleVSMetadata`, bit rate higher by 200000 b/s, which is within 5 percent
of the baseline bit rate but beyond the fixed 100000 b/s tolerance. -/
def sampleVSMetadataCloseBitrate : VerifyStreamDifferences.Metadata :=
  { resolution := "1920x1080", width := 1920, height := 1080,
    codec := "h264", bitrate := 5200000, duration := 3600, fps := 25,
    audio := none }

/-- A compare_streams metadata record matching `sampleCSMetadata` on
resolution, bit rate and file size but differing on codec, duration, fps and
audio fields. -/
def sampleCSMetadataOtherCodec : CompareStreams.Metadata :=
  { resolution := "1920x1080", width := 1920, height := 1080,
    codec := "hevc", bitrate := 5100000, duration := 1800, fps := 30,
    file_size := 990000000, audio := some ("aac", 2) }

/-- Variant of `sampleCSMetadata` with the same resolution, bit rate and file
size but other codec, duration, fps and audio fields, for the
observational-equivalence witness. -/
def sampleCSMetadataObsTwin : CompareStreams.Metadata :=
  { resolution := "1920x1080", width := 1920, height := 1080,
    codec := "mpeg2video", bitrate := 5000000, duration := 7200, fps := 50,
    file_size := 1000000000, audio := some ("mp3", 6) }

/-!
Helper lemmas.
-/

theorem probeMatches_iff (f m : CompareStreams.Metadata) :
    CompareStreams.probeMatches f m = true ↔
      (m.resolution = f.resolution ∧
        20 * |m.bitrate - f.bitrate| ≤ f.bitrate ∧
        20 * |m.file_size - f.file_size| ≤ f.file_size) := by
  simp [CompareStreams.probeMatches, and_assoc]

theorem streamMatches_iff (f m : VerifyStreamDifferences.Metadata) :
    VerifyStreamDifferences.streamMatches f m = true ↔
      (m.resolution = f.resolution ∧ |m.bitrate - f.bitrate| ≤ 100000) := by
  simp [VerifyStreamDifferences.streamMatches]

theorem analyzeVerdictValid_short (valid : List CompareStreams.Metadata)
    (h : valid.length < 2) :
    CompareStreams.analyzeVerdictValid valid = .notEnough := by
  match valid with
  | [] => rfl
  | [_] => rfl
  | _ :: _ :: _ => simp at h; omega

theorem analyzeVerdictValid_cons_cons (a b : CompareStreams.Metadata)
    (l : List CompareStreams.Metadata) :
    CompareStreams.analyzeVerdictValid (a :: b :: l) =
      if (a :: b :: l).all (CompareStreams.probeMatches a) then .identical
      else .different := rfl

theorem analyze_episode_streams_eq_verdict
    (results : List (Option CompareStreams.Metadata)) :
    CompareStreams.analyze_episode_streams results =
      (CompareStreams.analyzeVerdict results == .identical) := by
  unfold CompareStreams.analyze_episode_streams
  cases CompareStreams.analyzeVerdict results <;> rfl

/-- C1: in `analyze_episode_streams`, a set of at least two valid probe
results is classified identical exactly when every valid probe matches the
first valid probe (the baseline) on the resolution string and stays within
5 percent of the baseline bit rate and of the baseline file size; otherwise
it is classified different. -/
theorem c1_identical_iff_within_five_percent
    (results : List (Option CompareStreams.Metadata))
    (first : CompareStreams.Metadata) (rest : List CompareStreams.Metadata)
    (hv : CompareStreams.validResults results = first :: rest)
    (hr : rest ≠ []) :
    (CompareStreams.analyzeVerdict results = CompareStreams.Verdict.identical ↔
      ∀ m ∈ first :: rest,
        m.resolution = first.resolution ∧
          20 * |m.bitrate - first.bitrate| ≤ first.bitrate ∧
          20 * |m.file_size - first.file_size| ≤ first.file_size) ∧
    (CompareStreams.analyzeVerdict results = CompareStreams.Verdict.identical ∨
      CompareStreams.analyzeVerdict results = CompareStreams.Verdict.different) := by
  cases rest with
  | nil => exact absurd rfl hr
  | cons b l =>
    unfold CompareStreams.analyzeVerdict
    rw [hv, analyzeVerdictValid_cons_cons]
    by_cases hall :
        (first :: b :: l).all (CompareStreams.probeMatches first) = true
    · rw [if_pos hall]
      simp only [List.all_eq_true, probeMatches_iff] at hall
      exact ⟨⟨fun _ => hall, fun _ => rfl⟩, Or.inl rfl⟩
    · rw [if_neg hall]
      refine ⟨⟨fun h => absurd h (by decide), fun hp => ?_⟩, Or.inr rfl⟩
      exact absurd
        (List.all_eq_true.mpr fun m hm => (probeMatches_iff _ _).mpr (hp m hm))
        hall

/-- Witness for C1: two probes of equal resolution whose bit rates differ by
2 percent and file sizes by 1 percent are classified identical. -/
theorem c1_identical_iff_within_five_percent_witness :
    CompareStreams.analyzeVerdict
        [some sampleCSMetadata, some sampleCSMetadataOtherCodec] =
      CompareStreams.Verdict.identical :=
  (c1_identical_iff_within_five_percent
      [some sampleCSMetadata, some sampleCSMetadataOtherCodec]
      sampleCSMetadata [sampleCSMetadataOtherCodec] rfl
      (by simp)).1.mpr (by decide)

/-- Counterexample for C3: on an empty input, `compare_streams` of
`verify_stream_differences.py` takes the `No streams could be analyzed` early
return (line 131-133), not the `Not enough valid streams to compare` report
the claim describes, even though zero probes succeeded. -/
theorem c3_counterexample :
    VerifyStreamDifferences.compareVerdict
        ([] : List (Option VerifyStreamDifferences.Metadata)) =
      VerifyStreamDifferences.Verdict.noStreams ∧
    VerifyStreamDifferences.Verdict.noStreams ≠
      VerifyStreamDifferences.Verdict.notEnough :=
  ⟨rfl, by decide⟩

/-- C3 (amended): when fewer than two probes succeed, both functions skip
the identical/different comparison: `analyze_episode_streams` reports that
there are not enough valid streams and returns `False`, and `compare_streams`
reports that there are not enough valid streams — except on an empty input,
where it instead reports that no streams could be analyzed.  Neither produces
an identical or different classification. -/
theorem c3_skip_when_fewer_than_two_valid
    (csResults : List (Option CompareStreams.Metadata))
    (vsResults : List (Option VerifyStreamDifferences.Metadata))
    (hcs : (CompareStreams.validResults csResults).length < 2)
    (hvs : (vsResults.filterMap id).length < 2) :
    CompareStreams.analyzeVerdict csResults =
        CompareStreams.Verdict.notEnough ∧
      CompareStreams.analyze_episode_streams csResults = false ∧
      VerifyStreamDifferences.compareVerdict vsResults =
        (if vsResults.isEmpty then VerifyStreamDifferences.Verdict.noStreams
         else VerifyStreamDifferences.Verdict.notEnough) := by
  have hcs' : CompareStreams.analyzeVerdict csResults =
      CompareStreams.Verdict.notEnough :=
    analyzeVerdictValid_short _ hcs
  refine ⟨hcs', ?_, ?_⟩
  · rw [analyze_episode_streams_eq_verdict, hcs']
    rfl
  · unfold VerifyStreamDifferences.compareVerdict
    cases he : vsResults.isEmpty with
    | true => simp
    | false =>
      simp only [he, Bool.false_eq_true, if_false]
      match hm : vsResults.filterMap id with
      | [] => rfl
      | [_] => rfl
      | a :: b :: l => rw [hm] at hvs; simp at hvs; omega

/-- Witness for C3: one failed probe and one successful probe give only one
valid result, so the comparison is skipped in both scripts. -/
theorem c3_skip_when_fewer_than_two_valid_witness :
    CompareStreams.analyzeVerdict [none, some sampleCSMetadata] =
        CompareStreams.Verdict.notEnough ∧
      CompareStreams.analyze_episode_streams [none, some sampleCSMetadata] =
        false ∧
      VerifyStreamDifferences.compareVerdict [none, some sampleVSMetadata] =
        (if ([none, some sampleVSMetadata] :
              List (Option VerifyStreamDifferences.Metadata)).isEmpty then
          VerifyStreamDifferences.Verdict.noStreams
         else VerifyStreamDifferences.Verdict.notEnough) :=
  c3_skip_when_fewer_than_two_valid [none, some sampleCSMetadata]
    [none, some sampleVSMetadata] (by decide) (by decide)

/-- C10: the tally of `main` counts every analyzed episode: the identical
counter counts exactly the episodes whose analysis returned `True`, the
different counter counts exactly the rest, and an episode with fewer than two
valid probes makes `analyze_episode_streams` return `False` — the same value
as for genuinely different streams — so it lands in the different count. -/
theorem c10_skipped_episode_counted_as_different :
    (∀ episodes : List (List (Option CompareStreams.Metadata)),
      (CompareStreams.mainTally episodes).1 =
          (episodes.filter
            (fun r => CompareStreams.analyze_episode_streams r)).length ∧
        (CompareStreams.mainTally episodes).2 =
          (episodes.filter
            (fun r => !CompareStreams.analyze_episode_streams r)).length ∧
        (CompareStreams.mainTally episodes).1 +
            (CompareStreams.mainTally episodes).2 = episodes.length) ∧
    ∀ results : List (Option CompareStreams.Metadata),
      (CompareStreams.validResults results).length < 2 →
        CompareStreams.analyze_episode_streams results = false := by
  constructor
  · have aux : ∀ (episodes : List (List (Option CompareStreams.Metadata)))
        (acc : Nat × Nat),
        episodes.foldl
            (fun acc results =>
              if CompareStreams.analyze_episode_streams results then
                (acc.1 + 1, acc.2)
              else (acc.1, acc.2 + 1)) acc =
          (acc.1 +
              (episodes.filter
                (fun r => CompareStreams.analyze_episode_streams r)).length,
            acc.2 +
              (episodes.filter
                (fun r => !CompareStreams.analyze_episode_streams r)).length) := by
      intro episodes
      induction episodes with
      | nil => intro acc; simp
      | cons e es ih =>
        intro acc
        rw [List.foldl_cons, ih]
        by_cases h : CompareStreams.analyze_episode_streams e
        · simp [List.filter_cons, h, Prod.ext_iff]
          omega
        · simp only [Bool.not_eq_true] at h
          simp [List.filter_cons, h, Prod.ext_iff]
          omega
    have hsum : ∀ (l : List (List (Option CompareStreams.Metadata)))
        (p : List (Option CompareStreams.Metadata) → Bool),
        (l.filter p).length + (l.filter (fun a => !(p a))).length = l.length := by
      intro l p
      induction l with
      | nil => rfl
      | cons a t ih => by_cases h : p a <;> simp [List.filter_cons, h] <;> omega
    intro episodes
    have h := aux episodes (0, 0)
    unfold CompareStreams.mainTally
    rw [h]
    refine ⟨by simp, by simp, ?_⟩
    simp only [Nat.zero_add]
    exact hsum episodes (fun r => CompareStreams.analyze_episode_streams r)
  · intro results h
    rw [analyze_episode_streams_eq_verdict,
      show CompareStreams.analyzeVerdict results =
          CompareStreams.Verdict.notEnough from analyzeVerdictValid_short _ h]
    rfl

/-- Witness for C10: an episode with a single valid probe is tallied as
different. -/
theorem c10_skipped_episode_counted_as_different_witness :
    CompareStreams.analyze_episode_streams [some sampleCSMetadata, none] =
      false :=
  c10_skipped_episode_counted_as_different.2 [some sampleCSMetadata, none]
    (by decide)

theorem compareVerdict_cons_cons
    (results : List (Option VerifyStreamDifferences.Metadata))
    (a b : VerifyStreamDifferences.Metadata)
    (l : List VerifyStreamDifferences.Metadata)
    (hv : results.filterMap id = a :: b :: l) :
    VerifyStreamDifferences.compareVerdict results =
      if (a :: b :: l).all (VerifyStreamDifferences.streamMatches a) then
        VerifyStreamDifferences.Verdict.identical
      else VerifyStreamDifferences.Verdict.different := by
  unfold VerifyStreamDifferences.compareVerdict
  cases results with
  | nil => simp at hv
  | cons r rs =>
    simp only [List.isEmpty_cons, Bool.false_eq_true, if_false]
    rw [hv]

/-- Counterexample for C2: two probes with equal resolution whose bit rates
differ by 200000 b/s, which is within 5 percent of the baseline bit rate of
5000000 b/s, are classified different by `compare_streams` of
`verify_stream_differences.py`: its tolerance is the fixed absolute value
100000 b/s (line 150), not 5 percent, and no file size is compared. -/
theorem c2_counterexample :
    VerifyStreamDifferences.compareVerdict
        [some sampleVSMetadata, some sampleVSMetadataCloseBitrate] =
      VerifyStreamDifferences.Verdict.different ∧
    sampleVSMetadataCloseBitrate.resolution = sampleVSMetadata.resolution ∧
    20 * |sampleVSMetadataCloseBitrate.bitrate - sampleVSMetadata.bitrate| ≤
      sampleVSMetadata.bitrate :=
  ⟨by decide, rfl, by decide⟩

/-- C2 (amended): `compare_streams` of `verify_stream_differences.py`
classifies a set of at least two valid probe results identical exactly when
every valid probe matches the first valid probe on the resolution string and
its bit rate differs from the baseline bit rate by at most the fixed
tolerance of 100000 bits per second; file size is not examined (the records
of this script carry no file size), and otherwise the set is classified
different. -/
theorem c2_identical_iff_fixed_bitrate_tolerance
    (results : List (Option VerifyStreamDifferences.Metadata))
    (first : VerifyStreamDifferences.Metadata)
    (rest : List VerifyStreamDifferences.Metadata)
    (hv : results.filterMap id = first :: rest)
    (hr : rest ≠ []) :
    (VerifyStreamDifferences.compareVerdict results =
        VerifyStreamDifferences.Verdict.identical ↔
      ∀ m ∈ first :: rest,
        m.resolution = first.resolution ∧
          |m.bitrate - first.bitrate| ≤ 100000) ∧
    (VerifyStreamDifferences.compareVerdict results =
        VerifyStreamDifferences.Verdict.identical ∨
      VerifyStreamDifferences.compareVerdict results =
        VerifyStreamDifferences.Verdict.different) := by
  cases rest with
  | nil => exact absurd rfl hr
  | cons b l =>
    rw [compareVerdict_cons_cons results first b l hv]
    by_cases hall :
        (first :: b :: l).all (VerifyStreamDifferences.streamMatches first) =
          true
    · rw [if_pos hall]
      simp only [List.all_eq_true, streamMatches_iff] at hall
      exact ⟨⟨fun _ => hall, fun _ => rfl⟩, Or.inl rfl⟩
    · rw [if_neg hall]
      refine ⟨⟨fun h => absurd h (by decide), fun hp => ?_⟩, Or.inr rfl⟩
      exact absurd
        (List.all_eq_true.mpr fun m hm => (streamMatches_iff _ _).mpr (hp m hm))
        hall

/-- Witness for C2 (amended): two probes of equal resolution and equal bit
rate are classified identical. -/
theorem c2_identical_iff_fixed_bitrate_tolerance_witness :
    VerifyStreamDifferences.compareVerdict
        [some sampleVSMetadata, some sampleVSMetadata] =
      VerifyStreamDifferences.Verdict.identical :=
  (c2_identical_iff_fixed_bitrate_tolerance
      [some sampleVSMetadata, some sampleVSMetadata]
      sampleVSMetadata [sampleVSMetadata] rfl (by simp)).1.mpr (by decide)

theorem cs_ffprobe_stream_some_inv (r : FFRun) (m : CompareStreams.Metadata)
    (h : CompareStreams.ffprobe_stream r = some m) :
    ∃ data v, r = FFRun.completed 0 (some data) ∧
      firstVideo data.streams = some v ∧
      m.resolution =
        toString (v.width.getD 0) ++ "x" ++ toString (v.height.getD 0) ∧
      m.audio = (firstAudio data.streams).map
        (fun a => (a.codec_name.getD "unknown", a.channels.getD 0)) := by
  cases r with
  | timeout => exact absurd h (by simp [CompareStreams.ffprobe_stream])
  | exc => exact absurd h (by simp [CompareStreams.ffprobe_stream])
  | completed rc parsed =>
    simp only [CompareStreams.ffprobe_stream] at h
    by_cases hrc : rc = 0
    · subst hrc
      rw [if_neg (by simp)] at h
      cases parsed with
      | none => exact absurd h (by simp)
      | some data =>
        dsimp only at h
        cases hfv : firstVideo data.streams with
        | none => rw [hfv] at h; exact absurd h (by simp)
        | some v =>
          rw [hfv] at h
          dsimp only at h
          refine ⟨data, v, rfl, hfv, ?_⟩
          split at h
          · rw [Option.some.injEq] at h
            subst h
            exact ⟨rfl, rfl⟩
          · exact absurd h (by simp)
    · rw [if_pos hrc] at h
      exact absurd h (by simp)

theorem vs_ffprobe_stream_some_inv (r : FFRun)
    (m : VerifyStreamDifferences.Metadata)
    (h : VerifyStreamDifferences.ffprobe_stream r = some m) :
    ∃ data v, r = FFRun.completed 0 (some data) ∧
      firstVideo data.streams = some v ∧
      m.resolution =
        toString (v.width.getD 0) ++ "x" ++ toString (v.height.getD 0) ∧
      m.audio = (firstAudio data.streams).map
        (fun a => (a.codec_name.getD "unknown", a.channels.getD 0)) := by
  cases r with
  | timeout => exact absurd h (by simp [VerifyStreamDifferences.ffprobe_stream])
  | exc => exact absurd h (by simp [VerifyStreamDifferences.ffprobe_stream])
  | completed rc parsed =>
    simp only [VerifyStreamDifferences.ffprobe_stream] at h
    by_cases hrc : rc = 0
    · subst hrc
      rw [if_neg (by simp)] at h
      cases parsed with
      | none => exact absurd h (by simp)
      | some data =>
        dsimp only at h
        cases hfv : firstVideo data.streams with
        | none => rw [hfv] at h; exact absurd h (by simp)
        | some v =>
          rw [hfv] at h
          dsimp only at h
          refine ⟨data, v, rfl, hfv, ?_⟩
          split at h
          · rw [Option.some.injEq] at h
            subst h
            exact ⟨rfl, rfl⟩
          · exact absurd h (by simp)
    · rw [if_pos hrc] at h
      exact absurd h (by simp)

/-- C8: both versions of `ffprobe_stream` absorb every failure mode into a
`None` return — timeout, any other exception, a nonzero exit status, a
failing JSON parse, absence of a video stream, or a failing field
conversion — and a metadata record comes back only from a zero-status run
whose output parsed and contained a video stream. -/
theorem c8_ffprobe_stream_total_over_failures :
    (CompareStreams.ffprobe_stream .timeout = none ∧
      CompareStreams.ffprobe_stream .exc = none ∧
      VerifyStreamDifferences.ffprobe_stream .timeout = none ∧
      VerifyStreamDifferences.ffprobe_stream .exc = none) ∧
    (∀ rc parsed, rc ≠ 0 →
      CompareStreams.ffprobe_stream (.completed rc parsed) = none ∧
        VerifyStreamDifferences.ffprobe_stream (.completed rc parsed) = none) ∧
    (∀ rc,
      CompareStreams.ffprobe_stream (.completed rc none) = none ∧
        VerifyStreamDifferences.ffprobe_stream (.completed rc none) = none) ∧
    (∀ rc data, firstVideo data.streams = none →
      CompareStreams.ffprobe_stream (.completed rc (some data)) = none ∧
        VerifyStreamDifferences.ffprobe_stream (.completed rc (some data)) =
          none) ∧
    (∀ r m, CompareStreams.ffprobe_stream r = some m →
      ∃ data v, r = FFRun.completed 0 (some data) ∧
        firstVideo data.streams = some v) ∧
    (∀ r m, VerifyStreamDifferences.ffprobe_stream r = some m →
      ∃ data v, r = FFRun.completed 0 (some data) ∧
        firstVideo data.streams = some v) := by
  refine ⟨⟨rfl, rfl, rfl, rfl⟩, ?_, ?_, ?_, ?_, ?_⟩
  · intro rc parsed hrc
    constructor
    · simp only [CompareStreams.ffprobe_stream]
      rw [if_pos hrc]
    · simp only [VerifyStreamDifferences.ffprobe_stream]
      rw [if_pos hrc]
  · intro rc
    constructor
    · simp only [CompareStreams.ffprobe_stream]
      split <;> rfl
    · simp only [VerifyStreamDifferences.ffprobe_stream]
      split <;> rfl
  · intro rc data hfv
    constructor
    · simp only [CompareStreams.ffprobe_stream]
      split
      · rfl
      · rw [hfv]
    · simp only [VerifyStreamDifferences.ffprobe_stream]
      split
      · rfl
      · rw [hfv]
  · intro r m h
    obtain ⟨data, v, hr, hv, _, _⟩ := cs_ffprobe_stream_some_inv r m h
    exact ⟨data, v, hr, hv⟩
  · intro r m h
    obtain ⟨data, v, hr, hv, _, _⟩ := vs_ffprobe_stream_some_inv r m h
    exact ⟨data, v, hr, hv⟩

/-- Witness for C8: a run that exits with status 1 probes to `None` in both
scripts, and the sample run yields a record, so its input was a zero-status
parsed run with a video stream. -/
theorem c8_ffprobe_stream_total_over_failures_witness :
    (CompareStreams.ffprobe_stream (.completed 1 (some sampleFFData)) = none ∧
      VerifyStreamDifferences.ffprobe_stream
          (.completed 1 (some sampleFFData)) = none) ∧
    ∃ data v, sampleRun = FFRun.completed 0 (some data) ∧
      firstVideo data.streams = some v :=
  ⟨c8_ffprobe_stream_total_over_failures.2.1 1 (some sampleFFData) (by decide),
    c8_ffprobe_stream_total_over_failures.2.2.2.2.1 sampleRun sampleCSMetadata
      (by decide)⟩

theorem cs_keys_facts (m : CompareStreams.Metadata) :
    ("resolution" ∈ CompareStreams.metadataKeys m ∧
      "codec" ∈ CompareStreams.metadataKeys m ∧
      "bitrate" ∈ CompareStreams.metadataKeys m ∧
      "duration" ∈ CompareStreams.metadataKeys m ∧
      "fps" ∈ CompareStreams.metadataKeys m ∧
      "file_size" ∈ CompareStreams.metadataKeys m) ∧
    (("audio_codec" ∈ CompareStreams.metadataKeys m ∧
        "audio_channels" ∈ CompareStreams.metadataKeys m) ↔
      m.audio.isSome) := by
  cases m with
  | mk res w hgt c br dur f fs audio =>
    cases audio <;> simp [CompareStreams.metadataKeys]

theorem vs_keys_facts (m : VerifyStreamDifferences.Metadata) :
    ("resolution" ∈ VerifyStreamDifferences.metadataKeys m ∧
      "codec" ∈ VerifyStreamDifferences.metadataKeys m ∧
      "bitrate" ∈ VerifyStreamDifferences.metadataKeys m ∧
      "duration" ∈ VerifyStreamDifferences.metadataKeys m ∧
      "fps" ∈ VerifyStreamDifferences.metadataKeys m ∧
      "file_size" ∉ VerifyStreamDifferences.metadataKeys m) ∧
    (("audio_codec" ∈ VerifyStreamDifferences.metadataKeys m ∧
        "audio_channels" ∈ VerifyStreamDifferences.metadataKeys m) ↔
      m.audio.isSome) := by
  cases m with
  | mk res w hgt c br dur f audio =>
    cases audio <;> simp [VerifyStreamDifferences.metadataKeys]

/-- Counterexample for C4: the record built by `ffprobe_stream` of
`verify_stream_differences.py` from a successful probe carries no file-size
entry (its dict literal, lines 66-74, has no such key), contradicting the
claim that both versions record the container file size. -/
theorem c4_counterexample :
    VerifyStreamDifferences.ffprobe_stream sampleRun = some sampleVSMetadata ∧
    "file_size" ∉ VerifyStreamDifferences.metadataKeys sampleVSMetadata :=
  ⟨by decide, by decide⟩

/-- C4 (amended): every successful probe of `compare_streams.py` yields a
flat record with resolution, codec, bitrate, duration, frame rate and file
size, the resolution being the width-x-height string of the video stream
found; every successful probe of `verify_stream_differences.py` yields the
same record without any file-size entry; in both, the audio codec and audio
channel keys are present exactly when an audio stream was found. -/
theorem c4_probe_record_shape :
    (∀ r m, CompareStreams.ffprobe_stream r = some m →
      "resolution" ∈ CompareStreams.metadataKeys m ∧
        "codec" ∈ CompareStreams.metadataKeys m ∧
        "bitrate" ∈ CompareStreams.metadataKeys m ∧
        "duration" ∈ CompareStreams.metadataKeys m ∧
        "fps" ∈ CompareStreams.metadataKeys m ∧
        "file_size" ∈ CompareStreams.metadataKeys m) ∧
    (∀ rc data m,
      CompareStreams.ffprobe_stream (.completed rc (some data)) = some m →
      ∃ v, firstVideo data.streams = some v ∧
        m.resolution =
          toString (v.width.getD 0) ++ "x" ++ toString (v.height.getD 0)) ∧
    (∀ rc data m,
      CompareStreams.ffprobe_stream (.completed rc (some data)) = some m →
      (("audio_codec" ∈ CompareStreams.metadataKeys m ∧
          "audio_channels" ∈ CompareStreams.metadataKeys m) ↔
        (firstAudio data.streams).isSome)) ∧
    (∀ r m, VerifyStreamDifferences.ffprobe_stream r = some m →
      "resolution" ∈ VerifyStreamDifferences.metadataKeys m ∧
        "codec" ∈ VerifyStreamDifferences.metadataKeys m ∧
        "bitrate" ∈ VerifyStreamDifferences.metadataKeys m ∧
        "duration" ∈ VerifyStreamDifferences.metadataKeys m ∧
        "fps" ∈ VerifyStreamDifferences.metadataKeys m ∧
        "file_size" ∉ VerifyStreamDifferences.metadataKeys m) ∧
    (∀ rc data m,
      VerifyStreamDifferences.ffprobe_stream (.completed rc (some data)) =
          some m →
      (("audio_codec" ∈ VerifyStreamDifferences.metadataKeys m ∧
          "audio_channels" ∈ VerifyStreamDifferences.metadataKeys m) ↔
        (firstAudio data.streams).isSome)) := by
  refine ⟨?_, ?_, ?_, ?_, ?_⟩
  · intro r m _
    exact (cs_keys_facts m).1
  · intro rc data m h
    obtain ⟨data', v, heq, hv, hres, _⟩ := cs_ffprobe_stream_some_inv _ m h
    injection heq with h1 h2
    injection h2 with h3
    subst h3
    exact ⟨v, hv, hres⟩
  · intro rc data m h
    obtain ⟨data', v, heq, _, _, haud⟩ := cs_ffprobe_stream_some_inv _ m h
    injection heq with h1 h2
    injection h2 with h3
    subst h3
    rw [(cs_keys_facts m).2, haud]
    cases firstAudio data.streams <;> simp
  · intro r m _
    exact (vs_keys_facts m).1
  · intro rc data m h
    obtain ⟨data', v, heq, _, _, haud⟩ := vs_ffprobe_stream_some_inv _ m h
    injection heq with h1 h2
    injection h2 with h3
    subst h3
    rw [(vs_keys_facts m).2, haud]
    cases firstAudio data.streams <;> simp

/-- Witness for C4 (amended): the sample probe yields a file-size key in the
compare_streams record, the width-x-height resolution string, and no audio
keys since the sample has no audio stream. -/
theorem c4_probe_record_shape_witness :
    "file_size" ∈ CompareStreams.metadataKeys sampleCSMetadata ∧
    (∃ v, firstVideo sampleFFData.streams = some v ∧
      sampleCSMetadata.resolution =
        toString (v.width.getD 0) ++ "x" ++ toString (v.height.getD 0)) ∧
    (("audio_codec" ∈ VerifyStreamDifferences.metadataKeys sampleVSMetadata ∧
        "audio_channels" ∈
          VerifyStreamDifferences.metadataKeys sampleVSMetadata) ↔
      (firstAudio sampleFFData.streams).isSome) :=
  ⟨(c4_probe_record_shape.1 sampleRun sampleCSMetadata (by decide)).2.2.2.2.2,
    c4_probe_record_shape.2.1 0 sampleFFData sampleCSMetadata (by decide),
    c4_probe_record_shape.2.2.2.2 0 sampleFFData sampleVSMetadata (by decide)⟩

/-- Counterexample for C5: test_episode_dedup.py is not read-only — its trace
contains the `Series.objects.create` insertion (taken whenever an account
exists and no matching series is found, lines 40-44) and the
`batch_process_episodes` invocation (line 134), which writes Episode and
M3UEpisodeRelation rows during the script invocation. -/
theorem c5_counterexample :
    DbEffects.DbOp.create ∈
        DbEffects.test_episode_deduplication_ops true false ∧
      DbEffects.DbOp.externalWrite ∈
        DbEffects.test_episode_deduplication_ops true true ∧
      DbEffects.DbOp.create ≠ DbEffects.DbOp.query ∧
      DbEffects.DbOp.externalWrite ≠ DbEffects.DbOp.query := by
  decide

/-- C5 (amended): every datastore call site of the eight scripts other than
test_episode_dedup.py is a read; test_episode_dedup.py performs the
`Series.objects.create` insertion exactly when an account exists and no
matching series is found, and invokes the writing task
`batch_process_episodes` whenever an account exists. -/
theorem c5_read_only_except_dedup_test :
    (∀ op ∈ DbEffects.readOnlyScriptOps, op = DbEffects.DbOp.query) ∧
    (∀ a m : Bool, a = true →
      DbEffects.DbOp.externalWrite ∈
        DbEffects.test_episode_deduplication_ops a m) ∧
    (∀ a m : Bool,
      DbEffects.DbOp.create ∈ DbEffects.test_episode_deduplication_ops a m ↔
        (a = true ∧ m = false)) := by
  refine ⟨?_, ?_, ?_⟩
  · decide
  · decide
  · decide

/-- Witness for C5 (amended): the first call site of compare_streams.py is a
read, and a run of the dedup test with an account and no matching series
reaches the writing task. -/
theorem c5_read_only_except_dedup_test_witness :
    DbEffects.DbOp.query = DbEffects.DbOp.query ∧
      DbEffects.DbOp.externalWrite ∈
        DbEffects.test_episode_deduplication_ops true false :=
  ⟨c5_read_only_except_dedup_test.1 DbEffects.DbOp.query (by decide),
    c5_read_only_except_dedup_test.2.1 true false rfl⟩

theorem obsEqM_validResults {rs₁ rs₂ : List (Option CompareStreams.Metadata)}
    (h : List.Forall₂ CompareStreams.obsEq rs₁ rs₂) :
    List.Forall₂ CompareStreams.obsEqM
      (CompareStreams.validResults rs₁) (CompareStreams.validResults rs₂) := by
  induction h with
  | nil => exact List.Forall₂.nil
  | cons hab htail ih =>
    rename_i a b l₁ l₂
    cases a with
    | none =>
      cases b with
      | none =>
        simpa [CompareStreams.validResults, List.filterMap_cons] using ih
      | some n => exact False.elim hab
    | some m =>
      cases b with
      | none => exact False.elim hab
      | some n =>
        simpa [CompareStreams.validResults, List.filterMap_cons] using
          List.Forall₂.cons (show CompareStreams.obsEqM m n from hab) ih

theorem probeMatches_congr {f g m n : CompareStreams.Metadata}
    (hf : CompareStreams.obsEqM f g) (hm : CompareStreams.obsEqM m n) :
    CompareStreams.probeMatches f m = CompareStreams.probeMatches g n := by
  obtain ⟨hf1, hf2, hf3⟩ := hf
  obtain ⟨hm1, hm2, hm3⟩ := hm
  simp [CompareStreams.probeMatches, hf1, hf2, hf3, hm1, hm2, hm3]

theorem all_probeMatches_congr {l₁ l₂ : List CompareStreams.Metadata}
    (h : List.Forall₂ CompareStreams.obsEqM l₁ l₂)
    {f g : CompareStreams.Metadata} (hf : CompareStreams.obsEqM f g) :
    l₁.all (CompareStreams.probeMatches f) =
      l₂.all (CompareStreams.probeMatches g) := by
  induction h with
  | nil => rfl
  | cons hab htail ih => simp [List.all_cons, probeMatches_congr hf hab, ih]

theorem analyzeVerdictValid_congr {l₁ l₂ : List CompareStreams.Metadata}
    (h : List.Forall₂ CompareStreams.obsEqM l₁ l₂) :
    CompareStreams.analyzeVerdictValid l₁ =
      CompareStreams.analyzeVerdictValid l₂ := by
  cases h with
  | nil => rfl
  | cons hab htail =>
    cases htail with
    | nil => rfl
    | cons hcd ht =>
      rw [analyzeVerdictValid_cons_cons, analyzeVerdictValid_cons_cons,
        all_probeMatches_congr
          (List.Forall₂.cons hab (List.Forall₂.cons hcd ht)) hab]

/-- C6: the verdict of `analyze_episode_streams` depends only on which probes
succeed and on the resolution, bit rate and file size of the successful ones
(two runs whose probe lists agree pointwise on success and on those three
fields get the same verdict), and with at least two valid results it is
`identical` exactly when every valid probe passes the loop-body test against
the first valid probe — the baseline is always the first valid probe, never
any other pair. -/
theorem c6_verdict_depends_only_on_observables :
    (∀ rs₁ rs₂ : List (Option CompareStreams.Metadata),
      List.Forall₂ CompareStreams.obsEq rs₁ rs₂ →
        CompareStreams.analyzeVerdict rs₁ =
          CompareStreams.analyzeVerdict rs₂) ∧
    (∀ (results : List (Option CompareStreams.Metadata)) first rest,
      CompareStreams.validResults results = first :: rest → rest ≠ [] →
      (CompareStreams.analyzeVerdict results =
          CompareStreams.Verdict.identical ↔
        ∀ m ∈ first :: rest,
          CompareStreams.probeMatches first m = true)) := by
  constructor
  · intro rs₁ rs₂ h
    exact analyzeVerdictValid_congr (obsEqM_validResults h)
  · intro results first rest hv hr
    cases rest with
    | nil => exact absurd rfl hr
    | cons b l =>
      unfold CompareStreams.analyzeVerdict
      rw [hv, analyzeVerdictValid_cons_cons]
      by_cases hall :
          (first :: b :: l).all (CompareStreams.probeMatches first) = true
      · rw [if_pos hall]
        simp only [List.all_eq_true] at hall
        exact ⟨fun _ => hall, fun _ => rfl⟩
      · rw [if_neg hall]
        exact ⟨fun h => absurd h (by decide),
          fun hp => absurd (List.all_eq_true.mpr hp) hall⟩

/-- Witness for C6: changing codec, duration, fps and audio of the first
probe while keeping resolution, bit rate and file size leaves the verdict
unchanged. -/
theorem c6_verdict_depends_only_on_observables_witness :
    CompareStreams.analyzeVerdict
        [some sampleCSMetadata, some sampleCSMetadataOtherCodec] =
      CompareStreams.analyzeVerdict
        [some sampleCSMetadataObsTwin, some sampleCSMetadataOtherCodec] :=
  c6_verdict_depends_only_on_observables.1 _ _
    (List.Forall₂.cons ⟨rfl, rfl, rfl⟩
      (List.Forall₂.cons ⟨rfl, rfl, rfl⟩ List.Forall₂.nil))

theorem mem_insertByCountDesc {x p : Nat × Nat} {l : List (Nat × Nat)} :
    x ∈ DupQuery.insertByCountDesc p l ↔ x = p ∨ x ∈ l := by
  induction l with
  | nil => simp [DupQuery.insertByCountDesc]
  | cons q rest ih =>
    simp only [DupQuery.insertByCountDesc]
    by_cases hle : q.2 ≤ p.2
    · rw [if_pos hle]
      simp
    · rw [if_neg hle]
      simp [ih]
      tauto

theorem pairwise_insertByCountDesc {p : Nat × Nat} {l : List (Nat × Nat)}
    (h : List.Pairwise (fun a b : Nat × Nat => b.2 ≤ a.2) l) :
    List.Pairwise (fun a b : Nat × Nat => b.2 ≤ a.2)
      (DupQuery.insertByCountDesc p l) := by
  induction l with
  | nil => simp [DupQuery.insertByCountDesc]
  | cons q rest ih =>
    obtain ⟨hq, hrest⟩ := List.pairwise_cons.mp h
    simp only [DupQuery.insertByCountDesc]
    by_cases hle : q.2 ≤ p.2
    · rw [if_pos hle]
      refine List.pairwise_cons.mpr ⟨?_, h⟩
      intro x hx
      rcases List.mem_cons.mp hx with rfl | hx2
      · exact hle
      · exact le_trans (hq x hx2) hle
    · rw [if_neg hle]
      refine List.pairwise_cons.mpr ⟨?_, ih hrest⟩
      intro x hx
      rcases mem_insertByCountDesc.mp hx with rfl | hx2
      · exact le_of_lt (Nat.lt_of_not_le hle)
      · exact hq x hx2

theorem pairwise_sortByCountDesc (l : List (Nat × Nat)) :
    List.Pairwise (fun a b : Nat × Nat => b.2 ≤ a.2)
      (DupQuery.sortByCountDesc l) := by
  induction l with
  | nil => simp [DupQuery.sortByCountDesc]
  | cons q rest ih =>
    simp only [DupQuery.sortByCountDesc, List.foldr_cons]
    exact pairwise_insertByCountDesc ih

theorem mem_sortByCountDesc {x : Nat × Nat} {l : List (Nat × Nat)} :
    x ∈ DupQuery.sortByCountDesc l ↔ x ∈ l := by
  induction l with
  | nil => simp [DupQuery.sortByCountDesc]
  | cons q rest ih =>
    simp only [DupQuery.sortByCountDesc, List.foldr_cons] at ih ⊢
    rw [mem_insertByCountDesc]
    simp [ih, eq_comm]

theorem mem_duplicate_episode_groups {rels : List Nat} {p : Nat × Nat} :
    p ∈ DupQuery.duplicate_episode_groups rels ↔
      p.1 ∈ rels ∧ p.2 = rels.count p.1 ∧ 1 < p.2 := by
  simp only [DupQuery.duplicate_episode_groups, List.mem_filter,
    List.mem_map, List.mem_dedup, decide_eq_true_eq]
  constructor
  · rintro ⟨⟨e, he, rfl⟩, hgt⟩
    exact ⟨he, rfl, hgt⟩
  · rintro ⟨he, hcount, hgt⟩
    refine ⟨⟨p.1, he, ?_⟩, hgt⟩
    rw [← hcount]

/-- C7: the duplicate-discovery queries select exactly the episodes with more
than one stream relation for the account: an episode id appears among the
grouped rows (used by both `find_episodes_with_duplicate_streams` and
`inspect_duplicates`) exactly when its relation count exceeds 1, and the
per-account list of `find_episodes_with_duplicate_streams` keeps at most 10
episodes, each with more than one relation, in descending relation-count
order. -/
theorem c7_duplicate_query_membership_and_order (rels : List Nat) (e : Nat) :
    (e ∈ (DupQuery.duplicate_episode_groups rels).map Prod.fst ↔
      1 < rels.count e) ∧
    (DupQuery.find_episodes_with_duplicate_streams rels).length ≤ 10 ∧
    (∀ x ∈ DupQuery.find_episodes_with_duplicate_streams rels,
      1 < rels.count x) ∧
    List.Pairwise (fun a b : Nat => b ≤ a)
      ((DupQuery.find_episodes_with_duplicate_streams rels).map
        (fun x => rels.count x)) := by
  refine ⟨?_, ?_, ?_, ?_⟩
  · simp only [List.mem_map]
    constructor
    · rintro ⟨p, hp, rfl⟩
      obtain ⟨_, hcount, hgt⟩ := mem_duplicate_episode_groups.mp hp
      rw [hcount] at hgt
      exact hgt
    · intro hgt
      refine ⟨(e, rels.count e), mem_duplicate_episode_groups.mpr ⟨?_, rfl, hgt⟩, rfl⟩
      exact List.count_pos_iff.mp (Nat.lt_of_lt_of_le Nat.zero_lt_one
        (Nat.le_of_lt hgt))
  · simp only [DupQuery.find_episodes_with_duplicate_streams,
      List.length_map, List.length_take]
    exact min_le_left 10 _
  · intro x hx
    simp only [DupQuery.find_episodes_with_duplicate_streams,
      List.mem_map] at hx
    obtain ⟨p, hp, rfl⟩ := hx
    have hp2 : p ∈ DupQuery.sortByCountDesc
        (DupQuery.duplicate_episode_groups rels) :=
      List.mem_of_mem_take hp
    obtain ⟨_, hcount, hgt⟩ :=
      mem_duplicate_episode_groups.mp (mem_sortByCountDesc.mp hp2)
    rw [← hcount]
    exact hgt
  · have hsorted := pairwise_sortByCountDesc
      (DupQuery.duplicate_episode_groups rels)
    have htake : List.Pairwise (fun a b : Nat × Nat => b.2 ≤ a.2)
        ((DupQuery.sortByCountDesc
          (DupQuery.duplicate_episode_groups rels)).take 10) :=
      List.Pairwise.sublist (List.take_sublist 10 _) hsorted
    have hsnd : ((DupQuery.find_episodes_with_duplicate_streams rels).map
          (fun x => rels.count x)) =
        ((DupQuery.sortByCountDesc
          (DupQuery.duplicate_episode_groups rels)).take 10).map Prod.snd := by
      simp only [DupQuery.find_episodes_with_duplicate_streams, List.map_map]
      apply List.map_congr_left
      intro p hp
      have hp2 := mem_sortByCountDesc.mp (List.mem_of_mem_take hp)
      obtain ⟨_, hcount, _⟩ := mem_duplicate_episode_groups.mp hp2
      simp [Function.comp, ← hcount]
    rw [hsnd]
    exact List.pairwise_map.mpr htake

/-- Witness for C7: on the relation rows `[1,2,2,3,3,3,4]`, episode 3 is kept
(three relations), and its relation count exceeds 1. -/
theorem c7_duplicate_query_membership_and_order_witness :
    1 < List.count 3 [1, 2, 2, 3, 3, 3, 4] :=
  (c7_duplicate_query_membership_and_order [1, 2, 2, 3, 3, 3, 4] 2).2.2.1 3
    (by decide)

theorem dictIncr_inv (acc : List (Nat × Nat)) (pfx : List Nat) (e : Nat)
    (h1 : (acc.map Prod.fst).Nodup)
    (h2 : ∀ x, x ∈ acc.map Prod.fst ↔ x ∈ pfx)
    (h3 : ∀ p ∈ acc, p.2 = pfx.count p.1) :
    ((DupQuery.dictIncr acc e).map Prod.fst).Nodup ∧
      (∀ x, x ∈ (DupQuery.dictIncr acc e).map Prod.fst ↔ x ∈ pfx ++ [e]) ∧
      (∀ p ∈ DupQuery.dictIncr acc e, p.2 = (pfx ++ [e]).count p.1) := by
  unfold DupQuery.dictIncr
  by_cases hmem : acc.any (fun p => p.1 == e) = true
  · rw [if_pos hmem]
    have he : e ∈ acc.map Prod.fst := by
      simp only [List.any_eq_true] at hmem
      obtain ⟨p, hp, hpe⟩ := hmem
      simp only [beq_iff_eq] at hpe
      exact List.mem_map.mpr ⟨p, hp, hpe⟩
    have hkeys : (acc.map (fun p : Nat × Nat =>
        if p.1 == e then (p.1, p.2 + 1) else p)).map Prod.fst =
        acc.map Prod.fst := by
      rw [List.map_map]
      apply List.map_congr_left
      intro p _
      by_cases hpe : p.1 = e
      · simp [Function.comp, hpe]
      · simp [Function.comp, hpe]
    refine ⟨by rw [hkeys]; exact h1, ?_, ?_⟩
    · intro x
      rw [hkeys, h2 x]
      simp only [List.mem_append, List.mem_singleton]
      constructor
      · exact fun h => Or.inl h
      · rintro (h | rfl)
        · exact h
        · exact (h2 x).mp he
    · intro p' hp'
      obtain ⟨p, hp, hpeq⟩ := List.mem_map.mp hp'
      by_cases hpe : p.1 = e
      · have hup : (if p.1 == e then (p.1, p.2 + 1) else p) = (p.1, p.2 + 1) := by
          simp [hpe]
        rw [hup] at hpeq
        rw [← hpeq]
        simp only [List.count_append, hpe, List.count_singleton]
        rw [← hpe, ← h3 p hp]
        simp
      · have hup : (if p.1 == e then (p.1, p.2 + 1) else p) = p := by
          simp [hpe]
        rw [hup] at hpeq
        rw [← hpeq]
        rw [List.count_append, h3 p hp]
        have : List.count p.1 [e] = 0 := by
          simp [List.count_singleton', hpe]
        omega
  · rw [if_neg hmem]
    have he : e ∉ acc.map Prod.fst := by
      intro hx
      obtain ⟨p, hp, hpe⟩ := List.mem_map.mp hx
      exact hmem (List.any_eq_true.mpr ⟨p, hp, by simp [hpe]⟩)
    have henp : e ∉ pfx := fun h => he ((h2 e).mpr h)
    refine ⟨?_, ?_, ?_⟩
    · rw [List.map_append]
      simp only [List.map_cons, List.map_nil]
      rw [List.nodup_append]
      refine ⟨h1, List.nodup_singleton e, ?_⟩
      intro a ha hae
      simp only [List.mem_singleton] at hae
      subst hae
      exact he ha
    · intro x
      rw [List.map_append]
      simp only [List.map_cons, List.map_nil, List.mem_append,
        List.mem_singleton, h2 x]
    · intro p' hp'
      rcases List.mem_append.mp hp' with hp | hp
      · have hne : p'.1 ≠ e := by
          intro hx
          exact he (hx ▸ List.mem_map.mpr ⟨p', hp, rfl⟩)
        rw [List.count_append, h3 p' hp]
        have : List.count p'.1 [e] = 0 := by
          simp [List.count_singleton', hne]
        omega
      · simp only [List.mem_singleton] at hp
        subst hp
        simp only [List.count_append, List.count_singleton]
        rw [List.count_eq_zero.mpr henp]
        simp

theorem foldl_dictIncr_inv (rels : List Nat) :
    ∀ (acc : List (Nat × Nat)) (pfx : List Nat),
      (acc.map Prod.fst).Nodup →
      (∀ x, x ∈ acc.map Prod.fst ↔ x ∈ pfx) →
      (∀ p ∈ acc, p.2 = pfx.count p.1) →
      ((rels.foldl DupQuery.dictIncr acc).map Prod.fst).Nodup ∧
        (∀ x, x ∈ (rels.foldl DupQuery.dictIncr acc).map Prod.fst ↔
          x ∈ pfx ++ rels) ∧
        (∀ p ∈ rels.foldl DupQuery.dictIncr acc,
          p.2 = (pfx ++ rels).count p.1) := by
  induction rels with
  | nil =>
    intro acc pfx h1 h2 h3
    simp only [List.foldl_nil, List.append_nil]
    exact ⟨h1, h2, h3⟩
  | cons e rest ih =>
    intro acc pfx h1 h2 h3
    obtain ⟨g1, g2, g3⟩ := dictIncr_inv acc pfx e h1 h2 h3
    have hrec := ih (DupQuery.dictIncr acc e) (pfx ++ [e]) g1 g2 g3
    rw [List.append_assoc, List.singleton_append] at hrec
    simp only [List.foldl_cons]
    exact hrec

theorem manualCounts_inv (rels : List Nat) :
    ((DupQuery.manualCounts rels).map Prod.fst).Nodup ∧
      (∀ x, x ∈ (DupQuery.manualCounts rels).map Prod.fst ↔ x ∈ rels) ∧
      (∀ p ∈ DupQuery.manualCounts rels, p.2 = rels.count p.1) := by
  have h := foldl_dictIncr_inv rels [] [] (by simp) (by simp) (by simp)
  simpa [DupQuery.manualCounts] using h

theorem length_filter_eq_of_nodup_mem_iff {l₁ l₂ : List Nat} (p : Nat → Bool)
    (h1 : l₁.Nodup) (h2 : l₂.Nodup) (hm : ∀ x, x ∈ l₁ ↔ x ∈ l₂) :
    (l₁.filter p).length = (l₂.filter p).length := by
  have hft : (l₁.filter p).toFinset = (l₂.filter p).toFinset := by
    ext x
    simp [List.mem_filter, hm x]
  calc (l₁.filter p).length = (l₁.filter p).toFinset.card :=
      (List.toFinset_card_of_nodup (h1.filter p)).symm
    _ = (l₂.filter p).toFinset.card := by rw [hft]
    _ = (l₂.filter p).length := List.toFinset_card_of_nodup (h2.filter p)

/-- C9: in `debug_query`, the manual Python grouping and the grouped ORM
query agree: the number of dict entries with more than one relation equals
the number of rows of the ORM duplicate query on every relation table, so
the `mismatch detected` branch (taken when the manual count is positive and
the ORM count is zero) is unreachable. -/
theorem c9_manual_grouping_equals_orm_query (rels : List Nat) :
    DupQuery.manual_dupes_count rels = DupQuery.orm_dupes_count rels ∧
      ¬(0 < DupQuery.manual_dupes_count rels ∧
        DupQuery.orm_dupes_count rels = 0) := by
  obtain ⟨h1, h2, h3⟩ := manualCounts_inv rels
  have hmanual : DupQuery.manual_dupes_count rels =
      (((DupQuery.manualCounts rels).map Prod.fst).filter
        (fun x => decide (1 < rels.count x))).length := by
    unfold DupQuery.manual_dupes_count
    rw [List.filter_map, List.length_map]
    congr 1
    apply List.filter_congr
    intro p hp
    simp [Function.comp, h3 p hp]
  have horm : DupQuery.orm_dupes_count rels =
      ((rels.dedup).filter (fun x => decide (1 < rels.count x))).length := by
    unfold DupQuery.orm_dupes_count DupQuery.duplicate_episode_groups
    rw [List.filter_map, List.length_map]
    congr 1
  have heq : DupQuery.manual_dupes_count rels =
      DupQuery.orm_dupes_count rels := by
    rw [hmanual, horm]
    exact length_filter_eq_of_nodup_mem_iff _ h1 (List.nodup_dedup rels)
      (fun x => by rw [h2 x, List.mem_dedup])
  exact ⟨heq, by omega⟩

/-- Witness for C9: on the relation rows `[1,2,2,3,3,3,4]` both counts agree. -/
theorem c9_manual_grouping_equals_orm_query_witness :
    DupQuery.manual_dupes_count [1, 2, 2, 3, 3, 3, 4] =
      DupQuery.orm_dupes_count [1, 2, 2, 3, 3, 3, 4] :=
  (c9_manual_grouping_equals_orm_query [1, 2, 2, 3, 3, 3, 4]).1
